import Mathlib

/-!
# Verification of the TMDB response-caching layer of NETFLIX-CLONE-SERVER

This file gives a shallow embedding of the cache-fronted fetcher implemented in
`src/services/tmdb.service.ts` together with the durable store semantics fixed by
`prisma/migrations/20251006110528_init/migration.sql`, and proves properties of it.

Modelling conventions:
* Timestamps are milliseconds since the epoch, as `Nat` (JS `Date.now()`).
  Each invocation observes a single clock value `Env.now`; the source reads the wall
  clock once for the expiry filter (`new Date()`) and once for the new entry
  (`Date.now() + cacheDuration`).
* The Prisma `ContentCache` table is a list of rows.  `findFirst` is `List.find?`.
  `create` appends a row, but fails when the new row collides with an existing row on
  the unique index `ContentCache_tmdbId_contentType_endpoint_key` declared in the
  migration (PostgreSQL rejects the INSERT and Prisma raises).
* The axios client is a function from the endpoint path to either a response payload
  or a failure (network error, non-2xx status, timeout all surface as a raised error).
  Payload bodies are opaque, hence the type parameter `α`.
* The `try/catch` of `fetchWithCache` converts any raised error (store lookup failure,
  upstream failure, store write failure) into a single thrown
  `Error("Failed to fetch from TMDB: " ++ endpoint)`; outcomes are `Except String α`
  carrying that message.  `Env.lookupFails` / `Env.writeFails` model the store
  collaborator raising on the lookup / on the write for external reasons.
* The outcome records the endpoints requested upstream and the number of store
  lookups issued, so that "zero upstream calls" and "bypasses the cache" are statable.
-/

namespace NetflixClone

/-- Milliseconds since the epoch (JS `Date.now()`). -/
abbrev Millis := Nat

/-- One row of the `ContentCache` table (columns of the migration; the generated
primary key `id` and the `cachedAt` default column play no role and are omitted). -/
structure CacheEntry (α : Type) where
  tmdbId : Nat
  contentType : String
  endpoint : String
  data : α
  expiresAt : Millis
deriving DecidableEq

/-- The `ContentCache` table contents, in insertion order. -/
abbrev Store (α : Type) := List (CacheEntry α)

/-- The external collaborators of one `fetchWithCache` invocation: the clock, the
axios client, and whether the store collaborator raises on the lookup or the write. -/
structure Env (α : Type) where
  now : Millis
  upstream : String → Except String α
  lookupFails : Bool
  writeFails : Bool

/-- Observable outcome of one invocation: the returned payload or thrown error
message, the table afterwards, the upstream endpoints requested (in order), and the
number of store lookups issued. -/
structure FetchOutcome (α : Type) where
  result : Except String α
  store : Store α
  upstreamCalls : List String
  storeLookups : Nat

/-- The `where` filter of the `findFirst` call in `fetchWithCache` (lines 76-83):
`endpoint: cacheKey, expiresAt: { gt: new Date() }`. -/
def isFreshFor {α : Type} (cacheKey : String) (now : Millis) (e : CacheEntry α) : Bool :=
  e.endpoint == cacheKey && decide (now < e.expiresAt)

/-- `prisma.contentCache.findFirst` with the fresh-entry filter. -/
def findFirstCached {α : Type} (store : Store α) (cacheKey : String) (now : Millis) :
    Option (CacheEntry α) :=
  store.find? (isFreshFor cacheKey now)

/-- The unique index `ContentCache_tmdbId_contentType_endpoint_key` of the migration
(line 127): an insert collides when an existing row agrees on all three columns. -/
def violatesUniqueIndex {α : Type} (store : Store α) (e : CacheEntry α) : Bool :=
  store.any fun e2 =>
    e2.tmdbId == e.tmdbId && e2.contentType == e.contentType && e2.endpoint == e.endpoint

/-- The message of the error thrown by the `catch` block of `fetchWithCache`
(line 111). -/
def fetchErrorMessage (endpoint : String) : String :=
  "Failed to fetch from TMDB: " ++ endpoint

/-- The row `fetchWithCache` inserts on a miss (lines 96-105): `tmdbId` is hardcoded
to `0` and `contentType` to `"general"` for every write; `endpoint` holds the cache
key; `expiresAt = now + cacheDuration`. -/
def freshEntry {α : Type} (env : Env α) (cacheKey : String) (ttl : Millis)
    (payload : α) : CacheEntry α :=
  { tmdbId := 0, contentType := "general", endpoint := cacheKey,
    data := payload, expiresAt := env.now + ttl }

/-- `fetchWithCache(endpoint, cacheKey, cacheDuration)` (lines 69-113).
Steps, as in the source: look up a fresh cached row; on a hit return its payload;
on a miss call the upstream client, insert a row
`{tmdbId: 0, contentType: "general", endpoint: cacheKey, data, expiresAt: now + cacheDuration}`,
and return the fresh payload.  Any raised error (lookup failure, upstream failure,
insert failure — including a unique-index collision) reaches the `catch` block, which
throws `Error("Failed to fetch from TMDB: " ++ endpoint)`.  The source declares a
default `cacheDuration` of 24h, but every caller passes the duration explicitly. -/
def fetchWithCache {α : Type} (env : Env α) (store : Store α)
    (endpoint cacheKey : String) (cacheDuration : Millis) : FetchOutcome α :=
  if env.lookupFails then
    { result := .error (fetchErrorMessage endpoint), store := store,
      upstreamCalls := [], storeLookups := 1 }
  else
    match findFirstCached store cacheKey env.now with
    | some cached =>
        { result := .ok cached.data, store := store,
          upstreamCalls := [], storeLookups := 1 }
    | none =>
        match env.upstream endpoint with
        | .error _ =>
            { result := .error (fetchErrorMessage endpoint), store := store,
              upstreamCalls := [endpoint], storeLookups := 1 }
        | .ok payload =>
            let entry : CacheEntry α :=
              { tmdbId := 0, contentType := "general", endpoint := cacheKey,
                data := payload, expiresAt := env.now + cacheDuration }
            if env.writeFails || violatesUniqueIndex store entry then
              { result := .error (fetchErrorMessage endpoint), store := store,
                upstreamCalls := [endpoint], storeLookups := 1 }
            else
              { result := .ok payload, store := store ++ [entry],
                upstreamCalls := [endpoint], storeLookups := 1 }

/-- `TMDBContentType = "movie" | "tv"` (tmdb.types.ts line 207). -/
inductive TMDBContentType
  | movie
  | tv
deriving DecidableEq

/-- The string a `TMDBContentType` value denotes. -/
def TMDBContentType.toStr : TMDBContentType → String
  | .movie => "movie"
  | .tv => "tv"

/-- `TMDBTimeWindow = "day" | "week"` (tmdb.types.ts line 202). -/
inductive TMDBTimeWindow
  | day
  | week
deriving DecidableEq

/-- The string a `TMDBTimeWindow` value denotes. -/
def TMDBTimeWindow.toStr : TMDBTimeWindow → String
  | .day => "day"
  | .week => "week"

/-- Decimal rendering, most significant digit first, by repeated division by 10 —
the rendering JS template literals apply to the non-negative integers interpolated
into cache keys.  The fuel argument makes the recursion structural. -/
def natCharsCore : Nat → Nat → List Char → List Char
  | 0, _, acc => acc
  | fuel + 1, n, acc =>
      if n / 10 = 0 then Nat.digitChar (n % 10) :: acc
      else natCharsCore fuel (n / 10) (Nat.digitChar (n % 10) :: acc)

/-- Decimal digit characters of `n`, most significant first (`natChars 550 = "550".data`). -/
def natChars (n : Nat) : List Char := natCharsCore (n + 1) n []

/-- Decimal rendering of `n` as a string, as a JS template literal renders a
non-negative number. -/
def natStr (n : Nat) : String := { data := natChars n }

/-- The logical request identity behind each public fetch method of the service:
constructor = endpoint class, arguments = the parameters interpolated into its
cache key. -/
inductive CacheRequest
  | trending (mediaType : TMDBContentType) (timeWindow : TMDBTimeWindow)
  | popular (mediaType : TMDBContentType) (page : Nat)
  | topRated (mediaType : TMDBContentType) (page : Nat)
  | nowPlaying (page : Nat)
  | upcoming (page : Nat)
  | movieDetails (movieId : Nat)
  | tvShowDetails (showId : Nat)
  | credits (mediaType : TMDBContentType) (id : Nat)
  | videos (mediaType : TMDBContentType) (id : Nat)
  | similar (mediaType : TMDBContentType) (id : Nat) (page : Nat)
  | recommendations (mediaType : TMDBContentType) (id : Nat) (page : Nat)
  | genres (mediaType : TMDBContentType)
deriving DecidableEq

/-- The `cacheKey` template literal each public method builds (tmdb.service.ts lines
126, 143, 159, 173, 188, 201, 215, 231, 247, 264, 281, 323). -/
def cacheKeyOf : CacheRequest → String
  | .trending m w => "trending_" ++ m.toStr ++ "_" ++ w.toStr
  | .popular m p => "popular_" ++ m.toStr ++ "_page" ++ natStr p
  | .topRated m p => "top_rated_" ++ m.toStr ++ "_page" ++ natStr p
  | .nowPlaying p => "now_playing_page" ++ natStr p
  | .upcoming p => "upcoming_page" ++ natStr p
  | .movieDetails i => "movie_details_" ++ natStr i
  | .tvShowDetails i => "tv_details_" ++ natStr i
  | .credits m i => m.toStr ++ "_credits_" ++ natStr i
  | .videos m i => m.toStr ++ "_videos_" ++ natStr i
  | .similar m i p => m.toStr ++ "_similar_" ++ natStr i ++ "_page" ++ natStr p
  | .recommendations m i p => m.toStr ++ "_recommendations_" ++ natStr i ++ "_page" ++ natStr p
  | .genres m => "genres_" ++ m.toStr

/-- `getTrending` (lines 121-130): 6-hour TTL. -/
def getTrending {α : Type} (env : Env α) (store : Store α)
    (mediaType : TMDBContentType) (timeWindow : TMDBTimeWindow) : FetchOutcome α :=
  fetchWithCache env store ("/trending/" ++ mediaType.toStr ++ "/" ++ timeWindow.toStr)
    (cacheKeyOf (.trending mediaType timeWindow)) (6 * 60 * 60 * 1000)

/-- `getPopular` (lines 138-146): 12-hour TTL. -/
def getPopular {α : Type} (env : Env α) (store : Store α)
    (mediaType : TMDBContentType) (page : Nat) : FetchOutcome α :=
  fetchWithCache env store ("/" ++ mediaType.toStr ++ "/popular")
    (cacheKeyOf (.popular mediaType page)) (12 * 60 * 60 * 1000)

/-- `getTopRated` (lines 154-162): 12-hour TTL. -/
def getTopRated {α : Type} (env : Env α) (store : Store α)
    (mediaType : TMDBContentType) (page : Nat) : FetchOutcome α :=
  fetchWithCache env store ("/" ++ mediaType.toStr ++ "/top_rated")
    (cacheKeyOf (.topRated mediaType page)) (12 * 60 * 60 * 1000)

/-- `getNowPlaying` (lines 169-177): 3-hour TTL. -/
def getNowPlaying {α : Type} (env : Env α) (store : Store α) (page : Nat) : FetchOutcome α :=
  fetchWithCache env store "/movie/now_playing"
    (cacheKeyOf (.nowPlaying page)) (3 * 60 * 60 * 1000)

/-- `getUpcoming` (lines 184-191): 12-hour TTL. -/
def getUpcoming {α : Type} (env : Env α) (store : Store α) (page : Nat) : FetchOutcome α :=
  fetchWithCache env store "/movie/upcoming"
    (cacheKeyOf (.upcoming page)) (12 * 60 * 60 * 1000)

/-- `getMovieDetails` (lines 199-205): 7-day TTL. -/
def getMovieDetails {α : Type} (env : Env α) (store : Store α) (movieId : Nat) : FetchOutcome α :=
  fetchWithCache env store ("/movie/" ++ natStr movieId)
    (cacheKeyOf (.movieDetails movieId)) (7 * 24 * 60 * 60 * 1000)

/-- `getTVShowDetails` (lines 213-218): 7-day TTL. -/
def getTVShowDetails {α : Type} (env : Env α) (store : Store α) (showId : Nat) : FetchOutcome α :=
  fetchWithCache env store ("/tv/" ++ natStr showId)
    (cacheKeyOf (.tvShowDetails showId)) (7 * 24 * 60 * 60 * 1000)

/-- `getCredits` (lines 226-234): 7-day TTL. -/
def getCredits {α : Type} (env : Env α) (store : Store α)
    (mediaType : TMDBContentType) (id : Nat) : FetchOutcome α :=
  fetchWithCache env store ("/" ++ mediaType.toStr ++ "/" ++ natStr id ++ "/credits")
    (cacheKeyOf (.credits mediaType id)) (7 * 24 * 60 * 60 * 1000)

/-- `getVideos` (lines 242-250): 7-day TTL. -/
def getVideos {α : Type} (env : Env α) (store : Store α)
    (mediaType : TMDBContentType) (id : Nat) : FetchOutcome α :=
  fetchWithCache env store ("/" ++ mediaType.toStr ++ "/" ++ natStr id ++ "/videos")
    (cacheKeyOf (.videos mediaType id)) (7 * 24 * 60 * 60 * 1000)

/-- `getSimilar` (lines 258-267): 24-hour TTL. -/
def getSimilar {α : Type} (env : Env α) (store : Store α)
    (mediaType : TMDBContentType) (id : Nat) (page : Nat) : FetchOutcome α :=
  fetchWithCache env store ("/" ++ mediaType.toStr ++ "/" ++ natStr id ++ "/similar")
    (cacheKeyOf (.similar mediaType id page)) (24 * 60 * 60 * 1000)

/-- `getRecommendations` (lines 275-284): 24-hour TTL. -/
def getRecommendations {α : Type} (env : Env α) (store : Store α)
    (mediaType : TMDBContentType) (id : Nat) (page : Nat) : FetchOutcome α :=
  fetchWithCache env store ("/" ++ mediaType.toStr ++ "/" ++ natStr id ++ "/recommendations")
    (cacheKeyOf (.recommendations mediaType id page)) (24 * 60 * 60 * 1000)

/-- `getGenres` (lines 321-333): 30-day TTL.  (The source then projects the
`genres` field out of the returned payload; payloads are opaque here.) -/
def getGenres {α : Type} (env : Env α) (store : Store α)
    (mediaType : TMDBContentType) : FetchOutcome α :=
  fetchWithCache env store ("/genre/" ++ mediaType.toStr ++ "/list")
    (cacheKeyOf (.genres mediaType)) (30 * 24 * 60 * 60 * 1000)

/-- `search` (lines 292-313): calls the client directly — no cache lookup, no cache
write.  `query` and `page` are sent as query parameters of the GET request; the
endpoint path is `/search/{mediaType}`.  On a raised client error it throws
`Error("Search failed")`. -/
def search {α : Type} (env : Env α) (store : Store α)
    (query : String) (mediaType : TMDBContentType) (page : Nat) : FetchOutcome α :=
  match env.upstream ("/search/" ++ mediaType.toStr) with
  | .ok payload =>
      { result := .ok payload, store := store,
        upstreamCalls := ["/search/" ++ mediaType.toStr], storeLookups := 0 }
  | .error _ =>
      { result := .error "Search failed", store := store,
        upstreamCalls := ["/search/" ++ mediaType.toStr], storeLookups := 0 }

/-- Numeric value of a decimal digit character (inverse of `Nat.digitChar` below 10). -/
def charVal (c : Char) : Nat := c.toNat - 48

/-- The number denoted by a list of decimal digit characters, most significant first;
a left inverse of `natChars`. -/
def unchars (l : List Char) : Nat := Nat.ofDigits 10 ((l.map charVal).reverse)

/-- Parser from cache-key characters back to the logical request, one arm per
expanded key template; a left inverse of `cacheKeyOf` (witnessing that the key
templates of the twelve public methods never collide). -/
def decode : List Char → Option CacheRequest
  | 't' :: 'r' :: 'e' :: 'n' :: 'd' :: 'i' :: 'n' :: 'g' :: '_' :: 'm' :: 'o' :: 'v' :: 'i' :: 'e' :: '_' :: 'd' :: 'a' :: 'y' :: _ => some (.trending .movie .day)
  | 't' :: 'r' :: 'e' :: 'n' :: 'd' :: 'i' :: 'n' :: 'g' :: '_' :: 'm' :: 'o' :: 'v' :: 'i' :: 'e' :: '_' :: 'w' :: 'e' :: 'e' :: 'k' :: _ => some (.trending .movie .week)
  | 't' :: 'r' :: 'e' :: 'n' :: 'd' :: 'i' :: 'n' :: 'g' :: '_' :: 't' :: 'v' :: '_' :: 'd' :: 'a' :: 'y' :: _ => some (.trending .tv .day)
  | 't' :: 'r' :: 'e' :: 'n' :: 'd' :: 'i' :: 'n' :: 'g' :: '_' :: 't' :: 'v' :: '_' :: 'w' :: 'e' :: 'e' :: 'k' :: _ => some (.trending .tv .week)
  | 'p' :: 'o' :: 'p' :: 'u' :: 'l' :: 'a' :: 'r' :: '_' :: 'm' :: 'o' :: 'v' :: 'i' :: 'e' :: '_' :: 'p' :: 'a' :: 'g' :: 'e' :: rest => some (.popular .movie (unchars rest))
  | 'p' :: 'o' :: 'p' :: 'u' :: 'l' :: 'a' :: 'r' :: '_' :: 't' :: 'v' :: '_' :: 'p' :: 'a' :: 'g' :: 'e' :: rest => some (.popular .tv (unchars rest))
  | 't' :: 'o' :: 'p' :: '_' :: 'r' :: 'a' :: 't' :: 'e' :: 'd' :: '_' :: 'm' :: 'o' :: 'v' :: 'i' :: 'e' :: '_' :: 'p' :: 'a' :: 'g' :: 'e' :: rest => some (.topRated .movie (unchars rest))
  | 't' :: 'o' :: 'p' :: '_' :: 'r' :: 'a' :: 't' :: 'e' :: 'd' :: '_' :: 't' :: 'v' :: '_' :: 'p' :: 'a' :: 'g' :: 'e' :: rest => some (.topRated .tv (unchars rest))
  | 'n' :: 'o' :: 'w' :: '_' :: 'p' :: 'l' :: 'a' :: 'y' :: 'i' :: 'n' :: 'g' :: '_' :: 'p' :: 'a' :: 'g' :: 'e' :: rest => some (.nowPlaying (unchars rest))
  | 'u' :: 'p' :: 'c' :: 'o' :: 'm' :: 'i' :: 'n' :: 'g' :: '_' :: 'p' :: 'a' :: 'g' :: 'e' :: rest => some (.upcoming (unchars rest))
  | 'm' :: 'o' :: 'v' :: 'i' :: 'e' :: '_' :: 'd' :: 'e' :: 't' :: 'a' :: 'i' :: 'l' :: 's' :: '_' :: rest => some (.movieDetails (unchars rest))
  | 't' :: 'v' :: '_' :: 'd' :: 'e' :: 't' :: 'a' :: 'i' :: 'l' :: 's' :: '_' :: rest => some (.tvShowDetails (unchars rest))
  | 'm' :: 'o' :: 'v' :: 'i' :: 'e' :: '_' :: 'c' :: 'r' :: 'e' :: 'd' :: 'i' :: 't' :: 's' :: '_' :: rest => some (.credits .movie (unchars rest))
  | 't' :: 'v' :: '_' :: 'c' :: 'r' :: 'e' :: 'd' :: 'i' :: 't' :: 's' :: '_' :: rest => some (.credits .tv (unchars rest))
  | 'm' :: 'o' :: 'v' :: 'i' :: 'e' :: '_' :: 'v' :: 'i' :: 'd' :: 'e' :: 'o' :: 's' :: '_' :: rest => some (.videos .movie (unchars rest))
  | 't' :: 'v' :: '_' :: 'v' :: 'i' :: 'd' :: 'e' :: 'o' :: 's' :: '_' :: rest => some (.videos .tv (unchars rest))
  | 'm' :: 'o' :: 'v' :: 'i' :: 'e' :: '_' :: 's' :: 'i' :: 'm' :: 'i' :: 'l' :: 'a' :: 'r' :: '_' :: rest =>
      some (.similar .movie (unchars (rest.takeWhile Char.isDigit)) (unchars ((rest.dropWhile Char.isDigit).drop 5)))
  | 't' :: 'v' :: '_' :: 's' :: 'i' :: 'm' :: 'i' :: 'l' :: 'a' :: 'r' :: '_' :: rest =>
      some (.similar .tv (unchars (rest.takeWhile Char.isDigit)) (unchars ((rest.dropWhile Char.isDigit).drop 5)))
  | 'm' :: 'o' :: 'v' :: 'i' :: 'e' :: '_' :: 'r' :: 'e' :: 'c' :: 'o' :: 'm' :: 'm' :: 'e' :: 'n' :: 'd' :: 'a' :: 't' :: 'i' :: 'o' :: 'n' :: 's' :: '_' :: rest =>
      some (.recommendations .movie (unchars (rest.takeWhile Char.isDigit)) (unchars ((rest.dropWhile Char.isDigit).drop 5)))
  | 't' :: 'v' :: '_' :: 'r' :: 'e' :: 'c' :: 'o' :: 'm' :: 'm' :: 'e' :: 'n' :: 'd' :: 'a' :: 't' :: 'i' :: 'o' :: 'n' :: 's' :: '_' :: rest =>
      some (.recommendations .tv (unchars (rest.takeWhile Char.isDigit)) (unchars ((rest.dropWhile Char.isDigit).drop 5)))
  | 'g' :: 'e' :: 'n' :: 'r' :: 'e' :: 's' :: '_' :: 'm' :: 'o' :: 'v' :: 'i' :: 'e' :: _ => some (.genres .movie)
  | 'g' :: 'e' :: 'n' :: 'r' :: 'e' :: 's' :: '_' :: 't' :: 'v' :: _ => some (.genres .tv)
  | _ => none

/-- Fixture: a cache hit scenario — clock at 50, upstream down. -/
def hitEnv : Env Nat :=
  { now := 50, upstream := fun _ => .error "ECONNREFUSED", lookupFails := false,
    writeFails := false }

/-- Fixture: an unexpired row (expires at 100 > 50) for key `genres_movie`. -/
def hitEntry : CacheEntry Nat :=
  { tmdbId := 0, contentType := "general", endpoint := "genres_movie", data := 42,
    expiresAt := 100 }

/-- Fixture: clock at 10, upstream healthy and answering payload 99. -/
def okEnv : Env Nat :=
  { now := 10, upstream := fun _ => .ok 99, lookupFails := false, writeFails := false }

/-- Fixture: an expired row (expires at 5 < 10) for key `movie_details_550`, written
by an earlier miss — note `tmdbId = 0` and `contentType = "general"`, as every row
written by `fetchWithCache` has. -/
def staleEntry : CacheEntry Nat :=
  { tmdbId := 0, contentType := "general", endpoint := "movie_details_550", data := 7,
    expiresAt := 5 }

/-- Fixture: clock at 10, upstream failing. -/
def downEnv : Env Nat :=
  { now := 10, upstream := fun _ => .error "timeout of 10000ms exceeded",
    lookupFails := false, writeFails := false }

/-- Fixture: upstream healthy, but the store write raises (e.g. the database
connection drops between the fetch and the insert). -/
def writeFailEnv : Env Nat :=
  { now := 10, upstream := fun _ => .ok 99, lookupFails := false, writeFails := true }

/-- Fixture: the store lookup itself raises. -/
def lookupFailEnv : Env Nat :=
  { now := 0, upstream := fun _ => .ok 1, lookupFails := true, writeFails := false }

/-- Fixture: an expired row (expires at 9 < 10) for key `genres_tv`. -/
def staleEntry2 : CacheEntry Nat :=
  { tmdbId := 0, contentType := "general", endpoint := "genres_tv", data := 8,
    expiresAt := 9 }

/-- Fixture: a row for key `upcoming_page1` expiring exactly at clock 50
(the expiry boundary). -/
def boundaryEntry : CacheEntry Nat :=
  { tmdbId := 0, contentType := "general", endpoint := "upcoming_page1", data := 3,
    expiresAt := 50 }

/-! ## Helper lemmas: decimal rendering -/

theorem natCharsCore_eq (fuel : Nat) : ∀ (n : Nat) (acc : List Char), n < fuel →
    natCharsCore fuel n acc =
      (if n = 0 then ['0'] else ((Nat.digits 10 n).map Nat.digitChar).reverse) ++ acc := by
  induction fuel with
  | zero => intro n acc h; exact absurd h (Nat.not_lt_zero n)
  | succ f ih =>
    intro n acc h
    simp only [natCharsCore]
    by_cases h10 : n / 10 = 0
    · have hn : n < 10 := (Nat.div_eq_zero_iff (by norm_num)).mp h10
      rw [if_pos h10]
      by_cases h0 : n = 0
      · subst h0; rfl
      · rw [if_neg h0]
        have hd : Nat.digits 10 n = [n] := by
          rw [Nat.digits_def' (by norm_num : 1 < 10) (Nat.pos_of_ne_zero h0), h10]
          simp [Nat.mod_eq_of_lt hn]
        rw [hd]
        simp [Nat.mod_eq_of_lt hn]
    · rw [if_neg h10]
      have h0 : n ≠ 0 := by
        intro h0; rw [h0] at h10; simp at h10
      have hlt : n / 10 < f := by
        have h1 : n / 10 < n := Nat.div_lt_self (Nat.pos_of_ne_zero h0) (by norm_num)
        omega
      rw [ih (n / 10) (Nat.digitChar (n % 10) :: acc) hlt, if_neg h10, if_neg h0,
        Nat.digits_def' (by norm_num : 1 < 10) (Nat.pos_of_ne_zero h0)]
      simp

theorem natChars_eq (n : Nat) :
    natChars n = if n = 0 then ['0'] else ((Nat.digits 10 n).map Nat.digitChar).reverse := by
  have h := natCharsCore_eq (n + 1) n [] (Nat.lt_succ_self n)
  simpa [natChars] using h

theorem charVal_digitChar (d : Nat) (h : d < 10) : charVal (Nat.digitChar d) = d := by
  interval_cases d <;> rfl

theorem unchars_natChars (n : Nat) : unchars (natChars n) = n := by
  rw [natChars_eq]
  by_cases h0 : n = 0
  · subst h0; rfl
  · rw [if_neg h0]
    unfold unchars
    rw [List.map_reverse, List.reverse_reverse, List.map_map]
    have hmap : (Nat.digits 10 n).map (charVal ∘ Nat.digitChar) = (Nat.digits 10 n).map id :=
      List.map_congr_left fun d hd => by
        simpa using charVal_digitChar d (Nat.digits_lt_base (by norm_num) hd)
    rw [hmap, List.map_id, Nat.ofDigits_digits]

theorem digitChar_isDigit (d : Nat) (h : d < 10) : (Nat.digitChar d).isDigit = true := by
  interval_cases d <;> rfl

theorem natChars_all_digits (n : Nat) : ∀ c ∈ natChars n, c.isDigit = true := by
  rw [natChars_eq]
  by_cases h0 : n = 0
  · subst h0; intro c hc; simp at hc; subst hc; rfl
  · rw [if_neg h0]
    intro c hc
    rw [List.mem_reverse] at hc
    obtain ⟨d, hd, rfl⟩ := List.mem_map.mp hc
    exact digitChar_isDigit d (Nat.digits_lt_base (by norm_num) hd)

/-! ## Helper lemmas: splitting digit segments of cache keys -/

theorem takeWhile_digits_append (d t : List Char) (hd : ∀ c ∈ d, c.isDigit = true) :
    List.takeWhile Char.isDigit (d ++ '_' :: t) = d := by
  induction d with
  | nil =>
    have h : Char.isDigit '_' = false := rfl
    simp [List.takeWhile_cons, h]
  | cons a l ih =>
    have ha : a.isDigit = true := hd a (List.mem_cons_self a l)
    simp [List.takeWhile_cons, ha, ih fun c hc => hd c (List.mem_cons_of_mem a hc)]

theorem dropWhile_digits_append (d t : List Char) (hd : ∀ c ∈ d, c.isDigit = true) :
    List.dropWhile Char.isDigit (d ++ '_' :: t) = '_' :: t := by
  induction d with
  | nil =>
    have h : Char.isDigit '_' = false := rfl
    simp [List.dropWhile_cons, h]
  | cons a l ih =>
    have ha : a.isDigit = true := hd a (List.mem_cons_self a l)
    simp [List.dropWhile_cons, ha, ih fun c hc => hd c (List.mem_cons_of_mem a hc)]

/-! ## Cache-key injectivity: decode is a left inverse of cacheKeyOf -/

set_option maxHeartbeats 1000000 in
theorem decode_cacheKeyOf (r : CacheRequest) : decode (cacheKeyOf r).data = some r := by
  cases r with
  | trending m w => cases m <;> cases w <;> rfl
  | popular m p =>
    cases m
    · have h : decode (cacheKeyOf (.popular .movie p)).data
          = some (.popular .movie (unchars (natChars p))) := rfl
      rw [h, unchars_natChars]
    · have h : decode (cacheKeyOf (.popular .tv p)).data
          = some (.popular .tv (unchars (natChars p))) := rfl
      rw [h, unchars_natChars]
  | topRated m p =>
    cases m
    · have h : decode (cacheKeyOf (.topRated .movie p)).data
          = some (.topRated .movie (unchars (natChars p))) := rfl
      rw [h, unchars_natChars]
    · have h : decode (cacheKeyOf (.topRated .tv p)).data
          = some (.topRated .tv (unchars (natChars p))) := rfl
      rw [h, unchars_natChars]
  | nowPlaying p =>
    have h : decode (cacheKeyOf (.nowPlaying p)).data
        = some (.nowPlaying (unchars (natChars p))) := rfl
    rw [h, unchars_natChars]
  | upcoming p =>
    have h : decode (cacheKeyOf (.upcoming p)).data
        = some (.upcoming (unchars (natChars p))) := rfl
    rw [h, unchars_natChars]
  | movieDetails i =>
    have h : decode (cacheKeyOf (.movieDetails i)).data
        = some (.movieDetails (unchars (natChars i))) := rfl
    rw [h, unchars_natChars]
  | tvShowDetails i =>
    have h : decode (cacheKeyOf (.tvShowDetails i)).data
        = some (.tvShowDetails (unchars (natChars i))) := rfl
    rw [h, unchars_natChars]
  | credits m i =>
    cases m
    · have h : decode (cacheKeyOf (.credits .movie i)).data
          = some (.credits .movie (unchars (natChars i))) := rfl
      rw [h, unchars_natChars]
    · have h : decode (cacheKeyOf (.credits .tv i)).data
          = some (.credits .tv (unchars (natChars i))) := rfl
      rw [h, unchars_natChars]
  | videos m i =>
    cases m
    · have h : decode (cacheKeyOf (.videos .movie i)).data
          = some (.videos .movie (unchars (natChars i))) := rfl
      rw [h, unchars_natChars]
    · have h : decode (cacheKeyOf (.videos .tv i)).data
          = some (.videos .tv (unchars (natChars i))) := rfl
      rw [h, unchars_natChars]
  | similar m i p =>
    cases m
    · have h : decode (cacheKeyOf (.similar .movie i p)).data
          = some (.similar .movie (unchars (List.takeWhile Char.isDigit ((natChars i ++ ['_', 'p', 'a', 'g', 'e']) ++ natChars p)))
              (unchars (List.drop 5 (List.dropWhile Char.isDigit ((natChars i ++ ['_', 'p', 'a', 'g', 'e']) ++ natChars p))))) := rfl
      rw [h, List.append_assoc]
      simp [List.cons_append, List.nil_append, List.drop_succ_cons, List.drop_zero,
        takeWhile_digits_append _ _ (natChars_all_digits i),
        dropWhile_digits_append _ _ (natChars_all_digits i), unchars_natChars]
    · have h : decode (cacheKeyOf (.similar .tv i p)).data
          = some (.similar .tv (unchars (List.takeWhile Char.isDigit ((natChars i ++ ['_', 'p', 'a', 'g', 'e']) ++ natChars p)))
              (unchars (List.drop 5 (List.dropWhile Char.isDigit ((natChars i ++ ['_', 'p', 'a', 'g', 'e']) ++ natChars p))))) := rfl
      rw [h, List.append_assoc]
      simp [List.cons_append, List.nil_append, List.drop_succ_cons, List.drop_zero,
        takeWhile_digits_append _ _ (natChars_all_digits i),
        dropWhile_digits_append _ _ (natChars_all_digits i), unchars_natChars]
  | recommendations m i p =>
    cases m
    · have h : decode (cacheKeyOf (.recommendations .movie i p)).data
          = some (.recommendations .movie (unchars (List.takeWhile Char.isDigit ((natChars i ++ ['_', 'p', 'a', 'g', 'e']) ++ natChars p)))
              (unchars (List.drop 5 (List.dropWhile Char.isDigit ((natChars i ++ ['_', 'p', 'a', 'g', 'e']) ++ natChars p))))) := rfl
      rw [h, List.append_assoc]
      simp [List.cons_append, List.nil_append, List.drop_succ_cons, List.drop_zero,
        takeWhile_digits_append _ _ (natChars_all_digits i),
        dropWhile_digits_append _ _ (natChars_all_digits i), unchars_natChars]
    · have h : decode (cacheKeyOf (.recommendations .tv i p)).data
          = some (.recommendations .tv (unchars (List.takeWhile Char.isDigit ((natChars i ++ ['_', 'p', 'a', 'g', 'e']) ++ natChars p)))
              (unchars (List.drop 5 (List.dropWhile Char.isDigit ((natChars i ++ ['_', 'p', 'a', 'g', 'e']) ++ natChars p))))) := rfl
      rw [h, List.append_assoc]
      simp [List.cons_append, List.nil_append, List.drop_succ_cons, List.drop_zero,
        takeWhile_digits_append _ _ (natChars_all_digits i),
        dropWhile_digits_append _ _ (natChars_all_digits i), unchars_natChars]
  | genres m => cases m <;> rfl


/-! ## Helper lemmas: the store lookup -/

theorem find?_eq_some_of_unique {α : Type} {p : CacheEntry α → Bool} {l : Store α}
    {e : CacheEntry α} (he : e ∈ l) (hpe : p e = true)
    (huniq : ∀ e1 ∈ l, p e1 = true → e1 = e) : l.find? p = some e := by
  induction l with
  | nil => cases he
  | cons a t ih =>
    by_cases hpa : p a = true
    · rw [List.find?_cons_of_pos t hpa]
      exact congrArg some (huniq a (List.mem_cons_self a t) hpa)
    · rw [List.find?_cons_of_neg t hpa]
      have he2 : e ∈ t := by
        rcases List.mem_cons.mp he with h | h
        · exact absurd (h ▸ hpe) hpa
        · exact h
      exact ih he2 fun e1 h1 hp1 => huniq e1 (List.mem_cons_of_mem a h1) hp1

theorem findFirstCached_eq_none {α : Type} {store : Store α} {k : String} {now : Millis}
    (h : ∀ e ∈ store, e.endpoint = k → e.expiresAt ≤ now) :
    findFirstCached store k now = none := by
  apply List.find?_eq_none.mpr
  intro e he
  simp only [isFreshFor, Bool.and_eq_true, beq_iff_eq, decide_eq_true_eq, not_and]
  intro hk hlt
  exact absurd hlt (Nat.not_lt.mpr (h e he hk))

theorem findFirstCached_eq_some {α : Type} {store : Store α} {k : String} {now : Millis}
    {e : CacheEntry α} (he : e ∈ store) (hk : e.endpoint = k) (hfresh : now < e.expiresAt)
    (huniq : ∀ e1 ∈ store, e1.endpoint = k → e1 = e) :
    findFirstCached store k now = some e := by
  apply find?_eq_some_of_unique he
  · simp [isFreshFor, hk, hfresh]
  · intro e1 h1 hp1
    have hk1 : e1.endpoint = k := by
      simpa [isFreshFor] using And.left (by simpa [isFreshFor] using hp1)
    exact huniq e1 h1 hk1

/-! ## Helper lemmas: the four branches of fetchWithCache -/

theorem fetchWithCache_lookup_raised {α : Type} (env : Env α) (store : Store α)
    (endpoint cacheKey : String) (ttl : Millis) (hl : env.lookupFails = true) :
    fetchWithCache env store endpoint cacheKey ttl =
      { result := .error (fetchErrorMessage endpoint), store := store,
        upstreamCalls := [], storeLookups := 1 } := by
  simp [fetchWithCache, hl]

theorem fetchWithCache_hit_eq {α : Type} (env : Env α) (store : Store α)
    (endpoint cacheKey : String) (ttl : Millis) (e : CacheEntry α)
    (hl : env.lookupFails = false) (hf : findFirstCached store cacheKey env.now = some e) :
    fetchWithCache env store endpoint cacheKey ttl =
      { result := .ok e.data, store := store, upstreamCalls := [], storeLookups := 1 } := by
  simp [fetchWithCache, hl, hf]

theorem fetchWithCache_miss_upstream_error {α : Type} (env : Env α) (store : Store α)
    (endpoint cacheKey : String) (ttl : Millis) (msg : String)
    (hl : env.lookupFails = false) (hf : findFirstCached store cacheKey env.now = none)
    (hu : env.upstream endpoint = .error msg) :
    fetchWithCache env store endpoint cacheKey ttl =
      { result := .error (fetchErrorMessage endpoint), store := store,
        upstreamCalls := [endpoint], storeLookups := 1 } := by
  simp [fetchWithCache, hl, hf, hu]

theorem fetchWithCache_miss_insert_raised {α : Type} (env : Env α) (store : Store α)
    (endpoint cacheKey : String) (ttl : Millis) (payload : α)
    (hl : env.lookupFails = false) (hf : findFirstCached store cacheKey env.now = none)
    (hu : env.upstream endpoint = .ok payload)
    (hw : (env.writeFails || violatesUniqueIndex store (freshEntry env cacheKey ttl payload)) = true) :
    fetchWithCache env store endpoint cacheKey ttl =
      { result := .error (fetchErrorMessage endpoint), store := store,
        upstreamCalls := [endpoint], storeLookups := 1 } := by
  simp [fetchWithCache, freshEntry] at hw ⊢
  simp [hl, hf, hu, hw]

theorem fetchWithCache_miss_insert_ok {α : Type} (env : Env α) (store : Store α)
    (endpoint cacheKey : String) (ttl : Millis) (payload : α)
    (hl : env.lookupFails = false) (hf : findFirstCached store cacheKey env.now = none)
    (hu : env.upstream endpoint = .ok payload)
    (hw : (env.writeFails || violatesUniqueIndex store (freshEntry env cacheKey ttl payload)) = false) :
    fetchWithCache env store endpoint cacheKey ttl =
      { result := .ok payload, store := store ++ [freshEntry env cacheKey ttl payload],
        upstreamCalls := [endpoint], storeLookups := 1 } := by
  simp [freshEntry] at hw ⊢
  simp [fetchWithCache, hl, hf, hu, hw]

/-! ## Helper lemmas: outcome shapes across all branches -/

theorem fetchWithCache_miss_calls_upstream {α : Type} (env : Env α) (store : Store α)
    (endpoint cacheKey : String) (ttl : Millis)
    (hl : env.lookupFails = false) (hf : findFirstCached store cacheKey env.now = none) :
    (fetchWithCache env store endpoint cacheKey ttl).upstreamCalls = [endpoint] := by
  cases hu : env.upstream endpoint with
  | error m =>
    rw [fetchWithCache_miss_upstream_error env store endpoint cacheKey ttl m hl hf hu]
  | ok a =>
    cases hw : env.writeFails || violatesUniqueIndex store (freshEntry env cacheKey ttl a) with
    | true =>
      rw [fetchWithCache_miss_insert_raised env store endpoint cacheKey ttl a hl hf hu hw]
    | false =>
      rw [fetchWithCache_miss_insert_ok env store endpoint cacheKey ttl a hl hf hu hw]

theorem fetchWithCache_result_shape {α : Type} (env : Env α) (store : Store α)
    (endpoint cacheKey : String) (ttl : Millis) :
    (∃ a, (fetchWithCache env store endpoint cacheKey ttl).result = .ok a) ∨
    (fetchWithCache env store endpoint cacheKey ttl).result
        = .error (fetchErrorMessage endpoint) := by
  by_cases hl : env.lookupFails = true
  · rw [fetchWithCache_lookup_raised env store endpoint cacheKey ttl hl]
    exact .inr rfl
  · have hl2 : env.lookupFails = false := by simpa using hl
    cases hf : findFirstCached store cacheKey env.now with
    | some e =>
      rw [fetchWithCache_hit_eq env store endpoint cacheKey ttl e hl2 hf]
      exact .inl ⟨e.data, rfl⟩
    | none =>
      cases hu : env.upstream endpoint with
      | error m =>
        rw [fetchWithCache_miss_upstream_error env store endpoint cacheKey ttl m hl2 hf hu]
        exact .inr rfl
      | ok a =>
        cases hw : env.writeFails || violatesUniqueIndex store (freshEntry env cacheKey ttl a) with
        | true =>
          rw [fetchWithCache_miss_insert_raised env store endpoint cacheKey ttl a hl2 hf hu hw]
          exact .inr rfl
        | false =>
          rw [fetchWithCache_miss_insert_ok env store endpoint cacheKey ttl a hl2 hf hu hw]
          exact .inl ⟨a, rfl⟩

theorem fetchWithCache_store_shape {α : Type} (env : Env α) (store : Store α)
    (endpoint cacheKey : String) (ttl : Millis) :
    (fetchWithCache env store endpoint cacheKey ttl).store = store ∨
    ∃ a, env.upstream endpoint = .ok a ∧
      (fetchWithCache env store endpoint cacheKey ttl).store
          = store ++ [freshEntry env cacheKey ttl a] ∧
      violatesUniqueIndex store (freshEntry env cacheKey ttl a) = false := by
  by_cases hl : env.lookupFails = true
  · rw [fetchWithCache_lookup_raised env store endpoint cacheKey ttl hl]
    exact .inl rfl
  · have hl2 : env.lookupFails = false := by simpa using hl
    cases hf : findFirstCached store cacheKey env.now with
    | some e =>
      rw [fetchWithCache_hit_eq env store endpoint cacheKey ttl e hl2 hf]
      exact .inl rfl
    | none =>
      cases hu : env.upstream endpoint with
      | error m =>
        rw [fetchWithCache_miss_upstream_error env store endpoint cacheKey ttl m hl2 hf hu]
        exact .inl rfl
      | ok a =>
        cases hw : env.writeFails || violatesUniqueIndex store (freshEntry env cacheKey ttl a) with
        | true =>
          rw [fetchWithCache_miss_insert_raised env store endpoint cacheKey ttl a hl2 hf hu hw]
          exact .inl rfl
        | false =>
          rw [fetchWithCache_miss_insert_ok env store endpoint cacheKey ttl a hl2 hf hu hw]
          refine .inr ⟨a, rfl, rfl, ?_⟩
          exact (Bool.or_eq_false_iff.mp hw).2

/-! ## The claims -/

/-- Claim C1 (hit correctness): for every `endpointPath`, `cacheKey` and `ttlMillis`,
if the store contains an entry whose `endpoint` equals `cacheKey` and whose
`expiresAt` is strictly greater than the current time — an entry that, by the unique
index and the fact that `fetchWithCache` is the table's only writer, is the only row
for that key — then `fetchWithCache` returns that entry's stored payload verbatim,
requests nothing upstream, and performs no store write. -/
theorem fetchWithCache_hit_correct {α : Type} (env : Env α) (store : Store α)
    (endpointPath cacheKey : String) (ttlMillis : Millis) (e : CacheEntry α)
    (hl : env.lookupFails = false) (he : e ∈ store) (hk : e.endpoint = cacheKey)
    (hfresh : env.now < e.expiresAt)
    (huniq : ∀ e1 ∈ store, e1.endpoint = cacheKey → e1 = e) :
    (fetchWithCache env store endpointPath cacheKey ttlMillis).result = .ok e.data ∧
    (fetchWithCache env store endpointPath cacheKey ttlMillis).upstreamCalls = [] ∧
    (fetchWithCache env store endpointPath cacheKey ttlMillis).store = store := by
  rw [fetchWithCache_hit_eq env store endpointPath cacheKey ttlMillis e hl
    (findFirstCached_eq_some he hk hfresh huniq)]
  exact ⟨rfl, rfl, rfl⟩

/-- Witness for C1: one unexpired row for `genres_movie` (payload 42, expiry 100,
clock 50) is served from the store with no upstream request and no write. -/
theorem fetchWithCache_hit_correct_witness :
    (fetchWithCache hitEnv [hitEntry] "/genre/movie/list" "genres_movie" 2592000000).result
        = .ok 42 ∧
    (fetchWithCache hitEnv [hitEntry] "/genre/movie/list" "genres_movie" 2592000000).upstreamCalls
        = [] ∧
    (fetchWithCache hitEnv [hitEntry] "/genre/movie/list" "genres_movie" 2592000000).store
        = [hitEntry] :=
  fetchWithCache_hit_correct hitEnv [hitEntry] "/genre/movie/list" "genres_movie"
    2592000000 hitEntry rfl (List.mem_singleton.mpr rfl) rfl (by decide)
    fun e1 h1 _ => List.mem_singleton.mp h1

/-- Claim C2 (code-bug evidence): with an expired row for `movie_details_550` in the
store — the normal state once its TTL has passed — and a healthy upstream returning
payload 99, the refresh claimed by the spec does not happen: upstream is called once,
but the insert collides with the unique index on (tmdbId = 0,
contentType = "general", endpoint = cacheKey), the catch block throws
`Failed to fetch from TMDB: /movie/550`, no row is written, and the fetched payload
is lost instead of being returned. -/
theorem fetchWithCache_expired_refresh_fails :
    (fetchWithCache okEnv [staleEntry] "/movie/550" "movie_details_550" 604800000).upstreamCalls
        = ["/movie/550"] ∧
    (fetchWithCache okEnv [staleEntry] "/movie/550" "movie_details_550" 604800000).result
        = .error "Failed to fetch from TMDB: /movie/550" ∧
    (fetchWithCache okEnv [staleEntry] "/movie/550" "movie_details_550" 604800000).store
        = [staleEntry] :=
  ⟨rfl, rfl, rfl⟩

/-- Claim C3 (code-bug evidence): on an empty store with a healthy upstream
(payload 99) but a failing store write, `fetchWithCache` throws
`Failed to fetch from TMDB: /movie/550` even though the upstream fetch succeeded —
the write failure masks the successful fetch instead of the payload being returned. -/
theorem fetchWithCache_write_failure_masks_fetch :
    writeFailEnv.upstream "/movie/550" = .ok 99 ∧
    (fetchWithCache writeFailEnv [] "/movie/550" "movie_details_550" 604800000).upstreamCalls
        = ["/movie/550"] ∧
    (fetchWithCache writeFailEnv [] "/movie/550" "movie_details_550" 604800000).result
        = .error "Failed to fetch from TMDB: /movie/550" :=
  ⟨rfl, rfl, rfl⟩

/-- Claim C4 (upstream-failure atomicity): when no unexpired row for `cacheKey`
exists and the upstream call fails, `fetchWithCache` fails with the error carrying
the endpoint path, performs exactly one upstream call, writes nothing (the store is
unchanged), and a later invocation with the same key (same or later clock) still
attempts a fresh upstream call — failures are not negatively cached. -/
theorem fetchWithCache_upstream_failure_atomic {α : Type} (env : Env α) (store : Store α)
    (endpointPath cacheKey : String) (ttlMillis : Millis) (msg : String)
    (hl : env.lookupFails = false)
    (hmiss : ∀ e ∈ store, e.endpoint = cacheKey → e.expiresAt ≤ env.now)
    (hu : env.upstream endpointPath = .error msg) :
    (fetchWithCache env store endpointPath cacheKey ttlMillis).result
        = .error (fetchErrorMessage endpointPath) ∧
    (fetchWithCache env store endpointPath cacheKey ttlMillis).store = store ∧
    (fetchWithCache env store endpointPath cacheKey ttlMillis).upstreamCalls
        = [endpointPath] ∧
    (∀ env2 : Env α, env2.lookupFails = false → env.now ≤ env2.now →
      (fetchWithCache env2 store endpointPath cacheKey ttlMillis).upstreamCalls
          = [endpointPath]) := by
  rw [fetchWithCache_miss_upstream_error env store endpointPath cacheKey ttlMillis msg hl
    (findFirstCached_eq_none hmiss) hu]
  refine ⟨rfl, rfl, rfl, ?_⟩
  intro env2 hl2 hle
  exact fetchWithCache_miss_calls_upstream env2 store endpointPath cacheKey ttlMillis hl2
    (findFirstCached_eq_none fun e he hk => le_trans (hmiss e he hk) hle)

/-- Witness for C4: empty store, upstream timing out; the call fails with the
endpoint-carrying message, writes nothing, calls upstream once, and a retry calls
upstream again. -/
theorem fetchWithCache_upstream_failure_atomic_witness :
    (fetchWithCache downEnv [] "/movie/now_playing" "now_playing_page1" 10800000).result
        = .error "Failed to fetch from TMDB: /movie/now_playing" ∧
    (fetchWithCache downEnv [] "/movie/now_playing" "now_playing_page1" 10800000).store
        = [] ∧
    (fetchWithCache downEnv [] "/movie/now_playing" "now_playing_page1" 10800000).upstreamCalls
        = ["/movie/now_playing"] := by
  obtain ⟨h1, h2, h3, _⟩ := fetchWithCache_upstream_failure_atomic downEnv []
    "/movie/now_playing" "now_playing_page1" 10800000 "timeout of 10000ms exceeded"
    rfl (fun e he => absurd he (List.not_mem_nil e)) rfl
  exact ⟨h1, h2, h3⟩

/-- Claim C5 (strict expiry boundary): with a single stored row for `cacheKey`,
an `expiresAt` exactly equal to the current time is treated as expired — the miss
path runs and upstream is called; `expiresAt` strictly in the future is a hit
(payload served, no upstream call); `expiresAt` in the past is a miss. -/
theorem fetchWithCache_expiry_boundary_strict {α : Type} (env : Env α)
    (endpointPath cacheKey : String) (ttlMillis : Millis) (e : CacheEntry α)
    (hl : env.lookupFails = false) (hk : e.endpoint = cacheKey) :
    (e.expiresAt = env.now →
      (fetchWithCache env [e] endpointPath cacheKey ttlMillis).upstreamCalls
          = [endpointPath]) ∧
    (env.now < e.expiresAt →
      (fetchWithCache env [e] endpointPath cacheKey ttlMillis).result = .ok e.data ∧
      (fetchWithCache env [e] endpointPath cacheKey ttlMillis).upstreamCalls = []) ∧
    (e.expiresAt < env.now →
      (fetchWithCache env [e] endpointPath cacheKey ttlMillis).upstreamCalls
          = [endpointPath]) := by
  refine ⟨?_, ?_, ?_⟩
  · intro hb
    exact fetchWithCache_miss_calls_upstream env [e] endpointPath cacheKey ttlMillis hl
      (findFirstCached_eq_none fun e1 h1 _ =>
        le_of_eq ((List.mem_singleton.mp h1) ▸ hb))
  · intro hfresh
    rw [fetchWithCache_hit_eq env [e] endpointPath cacheKey ttlMillis e hl
      (findFirstCached_eq_some (List.mem_singleton.mpr rfl) hk hfresh
        fun e1 h1 _ => List.mem_singleton.mp h1)]
    exact ⟨rfl, rfl⟩
  · intro hpast
    exact fetchWithCache_miss_calls_upstream env [e] endpointPath cacheKey ttlMillis hl
      (findFirstCached_eq_none fun e1 h1 _ =>
        le_of_lt ((List.mem_singleton.mp h1) ▸ hpast))

/-- Witness for C5: a row expiring exactly at the current clock (50) triggers the
miss path — upstream is called. -/
theorem fetchWithCache_expiry_boundary_strict_witness :
    (fetchWithCache hitEnv [boundaryEntry] "/movie/upcoming" "upcoming_page1"
        43200000).upstreamCalls = ["/movie/upcoming"] :=
  (fetchWithCache_expiry_boundary_strict hitEnv "/movie/upcoming" "upcoming_page1"
    43200000 boundaryEntry rfl rfl).1 rfl

/-- Claim C6 counterexample: a miss on key `genres_tv` whose expired row is still in
the store does not end with both the stale and a fresh record present — the insert
collides with the unique index, the call fails, and the store still holds only the
stale row. -/
theorem stale_accumulation_counterexample :
    (fetchWithCache okEnv [staleEntry2] "/genre/tv/list" "genres_tv" 2592000000).store
        = [staleEntry2] ∧
    (fetchWithCache okEnv [staleEntry2] "/genre/tv/list" "genres_tv" 2592000000).result
        = .error "Failed to fetch from TMDB: /genre/tv/list" :=
  ⟨rfl, rfl⟩

/-- Claim C6 (amended): entries are never updated in place — an invocation leaves
every existing row untouched and at most appends one freshly fetched row for
`cacheKey`; but because every write hardcodes `tmdbId = 0` and
`contentType = "general"`, the unique index on (tmdbId, contentType, endpoint)
admits the new row only when no row for `cacheKey` (fresh or stale) existed at all,
so stale records never accumulate alongside a replacement for the same key. -/
theorem insert_only_no_accumulation {α : Type} (env : Env α) (store : Store α)
    (endpointPath cacheKey : String) (ttlMillis : Millis) :
    (∀ e ∈ store, e ∈ (fetchWithCache env store endpointPath cacheKey ttlMillis).store) ∧
    ((fetchWithCache env store endpointPath cacheKey ttlMillis).store = store ∨
      ∃ a, (fetchWithCache env store endpointPath cacheKey ttlMillis).store
            = store ++ [freshEntry env cacheKey ttlMillis a] ∧
          ∀ e2 ∈ store,
            ¬(e2.tmdbId = 0 ∧ e2.contentType = "general" ∧ e2.endpoint = cacheKey)) := by
  constructor
  · intro e he
    rcases fetchWithCache_store_shape env store endpointPath cacheKey ttlMillis with
      h | ⟨a, _, h, _⟩
    · rw [h]; exact he
    · rw [h]; exact List.mem_append_left _ he
  · rcases fetchWithCache_store_shape env store endpointPath cacheKey ttlMillis with
      h | ⟨a, _, h, hv⟩
    · exact .inl h
    · refine .inr ⟨a, h, ?_⟩
      intro e2 he2 hcon
      obtain ⟨h0, hgen, hkey⟩ := hcon
      have hv2 : ∀ x ∈ store,
          x.tmdbId = 0 → x.contentType = "general" → ¬x.endpoint = cacheKey := by
        simpa [violatesUniqueIndex, freshEntry] using hv
      exact hv2 e2 he2 h0 hgen hkey

/-- Witness for C6 (amended): an existing row survives an invocation. -/
theorem insert_only_no_accumulation_witness :
    hitEntry ∈ (fetchWithCache hitEnv [hitEntry] "/genre/movie/list" "genres_movie"
        2592000000).store :=
  (insert_only_no_accumulation hitEnv [hitEntry] "/genre/movie/list" "genres_movie"
    2592000000).1 hitEntry (List.mem_singleton.mpr rfl)

/-- Claim C7 (TTL policy mapping): genre lists are cached with a 30-day TTL and
now-playing with a 3-hour TTL — these calls are the generic fetch with those
constants, and any row they add expires exactly that long after the invocation's
clock — while `search` bypasses the cache entirely: no store lookup and no store
write, even for repeated identical queries. -/
theorem ttl_policy_mapping {α : Type} (env : Env α) (store : Store α) :
    (∀ m, getGenres env store m
        = fetchWithCache env store ("/genre/" ++ m.toStr ++ "/list")
            (cacheKeyOf (.genres m)) (30 * 24 * 60 * 60 * 1000)) ∧
    (∀ m e, e ∈ (getGenres env store m).store →
        e ∈ store ∨ e.expiresAt = env.now + 30 * 24 * 60 * 60 * 1000) ∧
    (∀ p, getNowPlaying env store p
        = fetchWithCache env store "/movie/now_playing"
            (cacheKeyOf (.nowPlaying p)) (3 * 60 * 60 * 1000)) ∧
    (∀ p e, e ∈ (getNowPlaying env store p).store →
        e ∈ store ∨ e.expiresAt = env.now + 3 * 60 * 60 * 1000) ∧
    (∀ q m p, (search env store q m p).storeLookups = 0 ∧
        (search env store q m p).store = store) := by
  refine ⟨fun m => rfl, ?_, fun p => rfl, ?_, ?_⟩
  · intro m e he
    simp only [getGenres] at he
    rcases fetchWithCache_store_shape env store ("/genre/" ++ m.toStr ++ "/list")
        (cacheKeyOf (.genres m)) (30 * 24 * 60 * 60 * 1000) with h | ⟨a, _, h, _⟩
    · rw [h] at he; exact .inl he
    · rw [h] at he
      rcases List.mem_append.mp he with h1 | h1
      · exact .inl h1
      · right
        rw [List.mem_singleton.mp h1]
        rfl
  · intro p e he
    simp only [getNowPlaying] at he
    rcases fetchWithCache_store_shape env store "/movie/now_playing"
        (cacheKeyOf (.nowPlaying p)) (3 * 60 * 60 * 1000) with h | ⟨a, _, h, _⟩
    · rw [h] at he; exact .inl he
    · rw [h] at he
      rcases List.mem_append.mp he with h1 | h1
      · exact .inl h1
      · right
        rw [List.mem_singleton.mp h1]
        rfl
  · intro q m p
    cases hu : env.upstream ("/search/" ++ m.toStr) with
    | ok a => simp [search, hu]
    | error msg => simp [search, hu]

/-- Witness for C7: the row a genre-list miss writes expires 30 days after the
clock. -/
theorem ttl_policy_mapping_witness :
    freshEntry okEnv "genres_movie" 2592000000 99 ∈ ([] : Store Nat) ∨
    (freshEntry okEnv "genres_movie" 2592000000 99).expiresAt
        = okEnv.now + 30 * 24 * 60 * 60 * 1000 :=
  (ttl_policy_mapping okEnv ([] : Store Nat)).2.1 TMDBContentType.movie
    (freshEntry okEnv "genres_movie" 2592000000 99) (List.mem_singleton.mpr rfl)

/-- Claim C8 counterexample: `getMovieDetails` for movie 550 — an endpoint tied to a
single subject — writes its cache row with `tmdbId = 0` (the sentinel), not 550; the
subject's upstream id survives only inside the cache-key string. -/
theorem subject_metadata_counterexample :
    (getMovieDetails okEnv [] 550).store.map (fun e => e.tmdbId) = [0] ∧
    (getMovieDetails okEnv [] 550).store.map (fun e => e.endpoint)
        = ["movie_details_550"] ∧
    (0 : Nat) ≠ 550 :=
  ⟨rfl, rfl, by decide⟩

/-- Claim C8 (amended): every row `fetchWithCache` writes — for subject-specific and
general endpoints alike — carries `tmdbId = 0` and `contentType = "general"`; the
subject's numeric identifier is never stored in the `tmdbId` column. -/
theorem cache_write_metadata_constant {α : Type} (env : Env α) (store : Store α)
    (endpointPath cacheKey : String) (ttlMillis : Millis) :
    ∀ e ∈ (fetchWithCache env store endpointPath cacheKey ttlMillis).store,
      e ∈ store ∨ (e.tmdbId = 0 ∧ e.contentType = "general" ∧ e.endpoint = cacheKey) := by
  intro e he
  rcases fetchWithCache_store_shape env store endpointPath cacheKey ttlMillis with
    h | ⟨a, _, h, _⟩
  · rw [h] at he; exact .inl he
  · rw [h] at he
    rcases List.mem_append.mp he with h1 | h1
    · exact .inl h1
    · right
      rw [List.mem_singleton.mp h1]
      exact ⟨rfl, rfl, rfl⟩

/-- Witness for C8 (amended): the row written by the movie-550 details miss has the
constant metadata. -/
theorem cache_write_metadata_constant_witness :
    freshEntry okEnv "movie_details_550" 604800000 99 ∈ ([] : Store Nat) ∨
    ((freshEntry okEnv "movie_details_550" 604800000 99).tmdbId = 0 ∧
     (freshEntry okEnv "movie_details_550" 604800000 99).contentType = "general" ∧
     (freshEntry okEnv "movie_details_550" 604800000 99).endpoint
        = "movie_details_550") :=
  cache_write_metadata_constant okEnv [] "/movie/550" "movie_details_550" 604800000
    (freshEntry okEnv "movie_details_550" 604800000 99) (List.mem_singleton.mpr rfl)

/-- Claim C9 (cache-key determinism and injectivity): `cacheKeyOf` — the key each
public fetch method builds — is a pure function of the logical request (endpoint
class, media kind, subject id, page, time window) and of nothing else (no clock, no
caller), and two requests that differ in any of those parameters, whether of the
same or of different methods, always produce different cache keys. -/
theorem cacheKey_injective (r1 r2 : CacheRequest) (h : cacheKeyOf r1 = cacheKeyOf r2) :
    r1 = r2 := by
  have h1 := decode_cacheKeyOf r1
  rw [h, decode_cacheKeyOf r2] at h1
  exact (Option.some.inj h1).symm

/-- Witness for C9: applied at a concrete pair with equal keys. -/
theorem cacheKey_injective_witness :
    cacheKeyOf (.trending .movie .week) = cacheKeyOf (.trending .movie .week) ∧
    CacheRequest.trending TMDBContentType.movie TMDBTimeWindow.week
      = CacheRequest.trending TMDBContentType.movie TMDBTimeWindow.week :=
  ⟨rfl, cacheKey_injective (.trending .movie .week) (.trending .movie .week) rfl⟩

/-- Claim C10 (error collapse at the public interface): every failing invocation of
`fetchWithCache` — store-lookup failure, upstream failure, or store-write failure —
throws one and the same error, whose message is exactly
`"Failed to fetch from TMDB: " ++ endpointPath`; and a store-lookup failure aborts
the call before any upstream request is made and changes nothing, so callers cannot
distinguish a store failure from an upstream failure. -/
theorem fetchWithCache_error_collapse {α : Type} (env : Env α) (store : Store α)
    (endpointPath cacheKey : String) (ttlMillis : Millis) :
    (∀ msg,
      (fetchWithCache env store endpointPath cacheKey ttlMillis).result = .error msg →
        msg = "Failed to fetch from TMDB: " ++ endpointPath) ∧
    (env.lookupFails = true →
      (fetchWithCache env store endpointPath cacheKey ttlMillis).upstreamCalls = [] ∧
      (fetchWithCache env store endpointPath cacheKey ttlMillis).result
          = .error ("Failed to fetch from TMDB: " ++ endpointPath) ∧
      (fetchWithCache env store endpointPath cacheKey ttlMillis).store = store) := by
  constructor
  · intro msg hmsg
    rcases fetchWithCache_result_shape env store endpointPath cacheKey ttlMillis with
      ⟨a, ha⟩ | he
    · rw [ha] at hmsg; simp at hmsg
    · rw [he] at hmsg
      exact (Except.error.inj hmsg).symm
  · intro hl
    rw [fetchWithCache_lookup_raised env store endpointPath cacheKey ttlMillis hl]
    exact ⟨rfl, rfl, rfl⟩

/-- Witness for C10: a lookup failure yields the endpoint-carrying message, zero
upstream calls, and an unchanged store. -/
theorem fetchWithCache_error_collapse_witness :
    (fetchWithCache lookupFailEnv [] "/tv/99" "tv_details_99" 604800000).upstreamCalls
        = [] ∧
    (fetchWithCache lookupFailEnv [] "/tv/99" "tv_details_99" 604800000).result
        = .error ("Failed to fetch from TMDB: " ++ "/tv/99") ∧
    (fetchWithCache lookupFailEnv [] "/tv/99" "tv_details_99" 604800000).store = [] :=
  (fetchWithCache_error_collapse lookupFailEnv [] "/tv/99" "tv_details_99" 604800000).2
    rfl

end NetflixClone
